import Mathlib

/-!
Verification of the delivery engine of the webhook relay and HTTP layer
(`src/main.py`, `src/db.py`) against its natural-language specification.

The Python code is shallowly embedded: the SQLite tables become Lean lists
of records, the FastAPI handlers become pure functions from an explicit
process state, and the delivery attempt loop `attempt_delivery` becomes a
function from the sequence of per-attempt HTTP outcomes to the trace of
observable actions it performs (HTTP posts, persisted writes, sleeps).
-/

namespace Webhook

/-- Delivery status, the `status` column of the `deliveries` table
(`db.py` line 35: `pending, delivered, failed`). -/
inductive Status where
  | pending
  | delivered
  | failed
deriving DecidableEq, Repr

/-- Outcome of one HTTP POST attempt in `attempt_delivery` (`main.py` 36):
either a response with a status code, or a raised exception (transport
error, timeout, DNS failure, ...) carrying its message `str(e)`. -/
inductive AttemptResult where
  | response (code : Nat)
  | transportError (msg : String)
deriving DecidableEq, Repr

/-- `main.py` 39: `200 <= resp.status_code < 300` is success. -/
def is2xx (code : Nat) : Bool := 200 ≤ code && code < 300

/-- Observable actions of the attempt loop, in program order.
`time.sleep` (`main.py` 67) is the synchronous sleep of the Python standard
library: called inside the `async def attempt_delivery` coroutine it blocks
the running thread (and hence the event loop the coroutine runs on), unlike
`await asyncio.sleep`, which would suspend the coroutine only.  The two are
kept apart as `blockingSleep` and `suspendSleep`; the source only ever
performs the former. -/
inductive Action where
  | httpPost (attempt : Nat)
  | persist (status : Status) (attempts : Nat) (last_error : Option String)
  | blockingSleep (seconds : Nat)
  | suspendSleep (seconds : Nat)
deriving DecidableEq, Repr

/-- `main.py` 30: `max_attempts = 3`. -/
def max_attempts : Nat := 3

/-- The error description persisted for a failed attempt:
`main.py` 49 for a non-2xx response, `main.py` 58 (`str(e)`) for a raised
exception; `none` when the attempt succeeded. -/
def describeFailure : AttemptResult → Option String
  | .response code =>
      if is2xx code then none else some ("Non-2xx response: " ++ toString code)
  | .transportError msg => some msg

/-- Body of the `for attempt in range(1, max_attempts + 1)` loop of
`attempt_delivery` (`main.py` 34-67) followed by the post-loop exhaustion
write (`main.py` 70-75).  `remaining` counts the loop iterations left,
`attempt` is the Python loop variable, `lastError` the `last_error`
local.  Each iteration posts (emitting `httpPost`); on 2xx it persists
`delivered` and returns; otherwise it persists `pending` with the failure
description and then sleeps `2 ** (attempt - 1)` seconds before the next
iteration.  When the loop ends without a success the final write persists
`failed` with `max_attempts` and the last description. -/
def attemptLoopFrom (o : Nat → AttemptResult) :
    Nat → Nat → Option String → List Action
  | 0, _, lastError => [.persist .failed max_attempts lastError]
  | remaining + 1, attempt, _ =>
    match o attempt with
    | .response code =>
      if is2xx code then
        [.httpPost attempt, .persist .delivered attempt none]
      else
        .httpPost attempt ::
        .persist .pending attempt (some ("Non-2xx response: " ++ toString code)) ::
        .blockingSleep (2 ^ (attempt - 1)) ::
        attemptLoopFrom o remaining (attempt + 1)
          (some ("Non-2xx response: " ++ toString code))
    | .transportError msg =>
      .httpPost attempt ::
      .persist .pending attempt (some msg) ::
      .blockingSleep (2 ^ (attempt - 1)) ::
      attemptLoopFrom o remaining (attempt + 1) (some msg)

/-- `attempt_delivery` (`main.py` 29-76) as a trace of actions, as a
function of the outcome `o n` of the HTTP POST of attempt `n`. -/
def attempt_delivery (o : Nat → AttemptResult) : List Action :=
  attemptLoopFrom o max_attempts 1 none

/-- Whether attempt `n`, were it made, would fail (non-2xx response or
raised exception), `main.py` 39/48/57. -/
def attemptFails (o : Nat → AttemptResult) (n : Nat) : Bool :=
  match o n with
  | .response code => !(is2xx code)
  | .transportError _ => true

/-- The durations of the sleeps of a trace, in order. -/
def sleeps (tr : List Action) : List Nat :=
  tr.filterMap fun a =>
    match a with
    | .blockingSleep s => some s
    | .suspendSleep s => some s
    | _ => none

/-- The number of HTTP POST attempts in a trace. -/
def numPosts (tr : List Action) : Nat :=
  (tr.filter fun a => match a with | .httpPost _ => true | _ => false).length

/-- The `(status, attempts, last_error)` triples written to the record
store by a trace, in order: each `persist` is one `update_delivery` call. -/
def persistedStates (tr : List Action) : List (Status × Nat × Option String) :=
  tr.filterMap fun a =>
    match a with
    | .persist s n e => some (s, n, e)
    | _ => none

/-- The final persisted `(status, attempts, last_error)` of a run
(every run ends in a persisted write). -/
def runResult (o : Nat → AttemptResult) : Status × Nat × Option String :=
  ((persistedStates (attempt_delivery o)).getLast?).getD (.pending, 0, none)

/-- Attempt `n` is the first successful attempt of the run: it is within
the budget, it succeeds, and every earlier attempt fails. -/
def firstSuccessAt (o : Nat → AttemptResult) (n : Nat) : Prop :=
  1 ≤ n ∧ n ≤ max_attempts ∧ attemptFails o n = false ∧
    ((List.range' 1 (n - 1)).all fun m => attemptFails o m) = true

/-- An outcome sequence on which every attempt gets an HTTP 500. -/
def all500 : Nat → AttemptResult := fun _ => .response 500

/-- Outcomes: HTTP 500 on attempts 1 and 2, HTTP 200 from attempt 3 on. -/
def failTwice200 : Nat → AttemptResult :=
  fun n => if n ≤ 2 then .response 500 else .response 200

/-- One loop iteration of the attempt loop: attempt `attempt` either
succeeds and ends the run, or fails, persists `pending`, sleeps, and the
loop continues with the description of the failure as the last error. -/
theorem attemptLoopFrom_succ (o : Nat → AttemptResult) (rem attempt : Nat)
    (e : Option String) :
    attemptLoopFrom o (rem + 1) attempt e =
      if attemptFails o attempt = false then
        [.httpPost attempt, .persist .delivered attempt none]
      else
        .httpPost attempt ::
        .persist .pending attempt (describeFailure (o attempt)) ::
        .blockingSleep (2 ^ (attempt - 1)) ::
        attemptLoopFrom o rem (attempt + 1) (describeFailure (o attempt)) := by
  rcases h : o attempt with c | m
  · rcases hc : is2xx c
    · simp [attemptLoopFrom, attemptFails, describeFailure, h, hc]
    · simp [attemptLoopFrom, attemptFails, describeFailure, h, hc]
  · simp [attemptLoopFrom, attemptFails, describeFailure, h]

/-- Closed form of the trace of the attempt loop, by cases on which of the
three attempts fail. -/
theorem attempt_delivery_eq (o : Nat → AttemptResult) :
    attempt_delivery o =
      if attemptFails o 1 = false then
        [.httpPost 1, .persist .delivered 1 none]
      else
        [.httpPost 1, .persist .pending 1 (describeFailure (o 1)),
         .blockingSleep 1] ++
        if attemptFails o 2 = false then
          [.httpPost 2, .persist .delivered 2 none]
        else
          [.httpPost 2, .persist .pending 2 (describeFailure (o 2)),
           .blockingSleep 2] ++
          if attemptFails o 3 = false then
            [.httpPost 3, .persist .delivered 3 none]
          else
            [.httpPost 3, .persist .pending 3 (describeFailure (o 3)),
             .blockingSleep 4,
             .persist .failed 3 (describeFailure (o 3))] := by
  show attemptLoopFrom o 3 1 none = _
  rw [show (3 : Nat) = 2 + 1 from rfl, attemptLoopFrom_succ]
  rcases hf1 : attemptFails o 1
  · simp [hf1]
  · rw [show (2 : Nat) = 1 + 1 from rfl, attemptLoopFrom_succ]
    rcases hf2 : attemptFails o 2
    · simp [hf1, hf2]
    · rw [show (1 : Nat) = 0 + 1 from rfl, attemptLoopFrom_succ]
      rcases hf3 : attemptFails o 3
      · simp [hf1, hf2, hf3]
      · simp [hf1, hf2, hf3, attemptLoopFrom, max_attempts]

/-- Whether an action is a sleep of either kind. -/
def isSleep : Action → Bool
  | .blockingSleep _ => true
  | .suspendSleep _ => true
  | _ => false

/-- Whether an action is a non-blocking suspend. -/
def isSuspend : Action → Bool
  | .suspendSleep _ => true
  | _ => false

/-- The persisted writes of a run, in closed form. -/
theorem persistedStates_attempt_delivery (o : Nat → AttemptResult) :
    persistedStates (attempt_delivery o) =
      if attemptFails o 1 = false then [(Status.delivered, 1, none)]
      else (Status.pending, 1, describeFailure (o 1)) ::
        if attemptFails o 2 = false then [(Status.delivered, 2, none)]
        else (Status.pending, 2, describeFailure (o 2)) ::
          if attemptFails o 3 = false then [(Status.delivered, 3, none)]
          else [(Status.pending, 3, describeFailure (o 3)),
                (Status.failed, 3, describeFailure (o 3))] := by
  rw [persistedStates, attempt_delivery_eq]
  rcases hf1 : attemptFails o 1 <;> rcases hf2 : attemptFails o 2 <;>
    rcases hf3 : attemptFails o 3 <;> simp [hf1, hf2, hf3]

/-- The final persisted `(status, attempts, last_error)`, in closed form:
the first successful attempt yields `delivered`, otherwise the run ends
`failed` with the failure description of attempt 3. -/
theorem runResult_eq (o : Nat → AttemptResult) :
    runResult o =
      if attemptFails o 1 = false then (Status.delivered, 1, none)
      else if attemptFails o 2 = false then (Status.delivered, 2, none)
      else if attemptFails o 3 = false then (Status.delivered, 3, none)
      else (Status.failed, 3, describeFailure (o 3)) := by
  rw [runResult, persistedStates_attempt_delivery]
  rcases hf1 : attemptFails o 1 <;> rcases hf2 : attemptFails o 2 <;>
    rcases hf3 : attemptFails o 3 <;> simp [hf1, hf2, hf3]

/-- The number of HTTP POSTs of a run, in closed form: the first
number of the successful attempt, or 3 when every attempt fails. -/
theorem numPosts_eq (o : Nat → AttemptResult) :
    numPosts (attempt_delivery o) =
      if attemptFails o 1 = false then 1
      else if attemptFails o 2 = false then 2
      else 3 := by
  rw [numPosts, attempt_delivery_eq]
  rcases hf1 : attemptFails o 1 <;> rcases hf2 : attemptFails o 2 <;>
    rcases hf3 : attemptFails o 3 <;> simp [hf1, hf2, hf3]

/-- C1 (counterexample): with every attempt answered by HTTP 500, the
trace of `attempt_delivery` sleeps 4 seconds after the 3rd (final) HTTP
attempt, before the terminal `failed` write — the claimed "no backoff
wait occurs after the final (3rd) attempt" is false on the code
(`main.py` 67 runs `time.sleep(2 ** (attempt - 1))` on the last failing
iteration too). -/
theorem C1_counterexample :
    attempt_delivery all500 =
      [.httpPost 1, .persist .pending 1 (some "Non-2xx response: 500"),
       .blockingSleep 1,
       .httpPost 2, .persist .pending 2 (some "Non-2xx response: 500"),
       .blockingSleep 2,
       .httpPost 3, .persist .pending 3 (some "Non-2xx response: 500"),
       .blockingSleep 4,
       .persist .failed 3 (some "Non-2xx response: 500")] ∧
    (attempt_delivery all500)[6]? = some (.httpPost 3) ∧
    (attempt_delivery all500).drop 7 =
      [.persist .pending 3 (some "Non-2xx response: 500"),
       .blockingSleep 4,
       .persist .failed 3 (some "Non-2xx response: 500")] := by
  refine ⟨?_, ?_, ?_⟩ <;> rfl

/-- C1 (amended): the waits between consecutive attempts N and N+1 equal
`2^(N-1)` seconds (1s after attempt 1, 2s after attempt 2); in addition,
when the 3rd attempt fails the loop waits `2^2 = 4` seconds after it,
before persisting the terminal `failed` state; no wait follows a
successful attempt. -/
theorem C1_amended (o : Nat → AttemptResult) :
    sleeps (attempt_delivery o) =
      if attemptFails o 1 = false then []
      else if attemptFails o 2 = false then [2 ^ 0]
      else if attemptFails o 3 = false then [2 ^ 0, 2 ^ 1]
      else [2 ^ 0, 2 ^ 1, 2 ^ 2] := by
  rw [sleeps, attempt_delivery_eq]
  rcases hf1 : attemptFails o 1 <;> rcases hf2 : attemptFails o 2 <;>
    rcases hf3 : attemptFails o 3 <;> simp [hf1, hf2, hf3]

/-- C2 (counterexample): in the all-500 run the write
`(pending, attempts = 3)` is persisted (and only later overwritten by
`failed`), so "persisted status pending ⇒ attempts < max_attempts (3)"
is false on the code (`main.py` 50-55 persists `pending` with
`attempts = attempt` even on the 3rd attempt). -/
theorem C2_counterexample :
    (Status.pending, 3, some "Non-2xx response: 500") ∈
      persistedStates (attempt_delivery all500) ∧
    ¬ (3 < max_attempts) := by
  exact ⟨by decide, by decide⟩

/-- Every `(status, attempts, last_error)` triple persisted over the
lifetime of a delivery record: the creation write of `ingest_webhook`
(`main.py` 214-225: `status=pending, attempts=0, last_error=None`,
stored by `create_delivery`) followed by the `update_delivery` writes of
the attempt loop. -/
def lifetimePersistedStates (o : Nat → AttemptResult) :
    List (Status × Nat × Option String) :=
  (Status.pending, 0, none) :: persistedStates (attempt_delivery o)

/-- C2 (amended): at every point in the lifetime of a delivery record at
which state has been persisted — the creation write included — if the
persisted status is `pending` then the persisted attempts count is at
most `max_attempts` (3); the bound is only `≤`, not `<`, because of the
transient `(pending, 3)` write after the failed 3rd attempt. -/
theorem C2_amended (o : Nat → AttemptResult) (n : Nat) (e : Option String)
    (h : (Status.pending, n, e) ∈ lifetimePersistedStates o) :
    n ≤ max_attempts := by
  rcases List.mem_cons.mp h with heq | hm
  · have h0 : n = 0 := by
      simpa using congrArg (fun t => t.2.1) heq
    rw [h0, max_attempts]
    omega
  · rw [persistedStates_attempt_delivery] at hm
    rcases hf1 : attemptFails o 1 <;> rcases hf2 : attemptFails o 2 <;>
      rcases hf3 : attemptFails o 3 <;>
      simp [hf1, hf2, hf3, max_attempts] at hm ⊢ <;> omega

/-- C2 (witness): the amended bound at the `(pending, 3)` write of the all-500 run. -/
theorem C2_amended_witness : 3 ≤ max_attempts :=
  C2_amended all500 3 (some "Non-2xx response: 500") (by decide)

/-- C3: a run ends `delivered` iff some attempt within the 3-attempt
budget would receive a 2xx response; and when attempt `n` is the first
successful one, the final persisted state of the run is
`(delivered, n, none)` and exactly `n` HTTP attempts are made (the loop
stops at the success). -/
theorem C3_delivered_iff (o : Nat → AttemptResult) :
    ((runResult o).1 = Status.delivered ↔
      ∃ n, 1 ≤ n ∧ n ≤ max_attempts ∧ attemptFails o n = false)
    ∧ ∀ n, firstSuccessAt o n →
        runResult o = (Status.delivered, n, none) ∧
        numPosts (attempt_delivery o) = n := by
  constructor
  · constructor
    · intro hd
      rcases hf1 : attemptFails o 1
      · exact ⟨1, by omega, by decide, hf1⟩
      · rcases hf2 : attemptFails o 2
        · exact ⟨2, by omega, by decide, hf2⟩
        · rcases hf3 : attemptFails o 3
          · exact ⟨3, by omega, by decide, hf3⟩
          · rw [runResult_eq] at hd
            simp [hf1, hf2, hf3] at hd
    · rintro ⟨n, h1, h3, hs⟩
      rw [runResult_eq]
      rcases hf1 : attemptFails o 1
      · simp [hf1]
      · rcases hf2 : attemptFails o 2
        · simp [hf1, hf2]
        · rcases hf3 : attemptFails o 3
          · simp [hf1, hf2, hf3]
          · rw [max_attempts] at h3
            interval_cases n <;> simp_all
  · intro n hn
    obtain ⟨h1, h3, hs, hall⟩ := hn
    rw [max_attempts] at h3
    interval_cases n
    · rw [runResult_eq, numPosts_eq]
      simp [hs]
    · have hf1 : attemptFails o 1 = true :=
        List.all_eq_true.mp hall 1 (by decide)
      rw [runResult_eq, numPosts_eq]
      simp [hf1, hs]
    · have hf1 : attemptFails o 1 = true :=
        List.all_eq_true.mp hall 1 (by decide)
      have hf2 : attemptFails o 2 = true :=
        List.all_eq_true.mp hall 2 (by decide)
      rw [runResult_eq, numPosts_eq]
      simp [hf1, hf2, hs]

/-- C3 (witness): with 500 on attempts 1-2 and 200 on attempt 3, the run
ends `(delivered, 3, none)` after exactly 3 attempts. -/
theorem C3_witness :
    runResult failTwice200 = (Status.delivered, 3, none) ∧
    numPosts (attempt_delivery failTwice200) = 3 :=
  (C3_delivered_iff failTwice200).2 3
    ⟨by decide, by decide, by decide, by decide⟩

/-- C4: when all three attempts fail, the final persisted state is
`(failed, max_attempts, description of the failure of the 3rd attempt)` and
exactly `max_attempts` HTTP attempts are made — none after the 3rd. -/
theorem C4_exhaustion (o : Nat → AttemptResult)
    (h1 : attemptFails o 1 = true) (h2 : attemptFails o 2 = true)
    (h3 : attemptFails o 3 = true) :
    runResult o = (Status.failed, max_attempts, describeFailure (o 3)) ∧
    numPosts (attempt_delivery o) = max_attempts := by
  rw [runResult_eq, numPosts_eq]
  simp [h1, h2, h3, max_attempts]

/-- C4 (witness): the all-500 run ends
`(failed, 3, "Non-2xx response: 500")` after exactly 3 attempts. -/
theorem C4_exhaustion_witness :
    runResult all500 = (Status.failed, max_attempts, describeFailure (all500 3)) ∧
    numPosts (attempt_delivery all500) = max_attempts :=
  C4_exhaustion all500 (by decide) (by decide) (by decide)

/-- C6: at the failing input where every attempt returns HTTP 500, every
backoff wait the loop performs is the synchronous, thread-blocking
`time.sleep` (`main.py` 67) — inside the `async def` coroutine this
blocks the event loop, stalling other in-flight work — and no
non-blocking suspend (`await asyncio.sleep`) ever occurs in the trace. -/
theorem C6_blocking_sleep :
    (attempt_delivery all500).filter isSleep =
      [.blockingSleep 1, .blockingSleep 2, .blockingSleep 4] ∧
    (attempt_delivery all500).all (fun a => !(isSuspend a)) = true := by
  exact ⟨by rfl, by rfl⟩

/-!
The record store (`db.py`).  The SQLite tables become Lean lists holding
the rows in insertion order.  Timestamps (`occurred_at`, `created_at`)
are ISO-8601 UTC strings in the source, whose lexicographic order agrees
with chronological order; they are modelled as natural numbers.
-/

/-- A row of the `deliveries` table (`db.py` 27-39). -/
structure Delivery where
  id : String
  user_id : String
  source : String
  destination_url : String
  event_type : String
  occurred_at : Nat
  status : Status
  attempts : Nat
  last_error : Option String
deriving DecidableEq, Repr

/-- A row of the `destinations` table (`db.py` 16-24). -/
structure Destination where
  id : String
  user_id : String
  url : String
  active : Bool
  created_at : Nat
deriving DecidableEq, Repr

/-- The SQLite database: both tables. -/
structure DB where
  deliveries : List Delivery
  destinations : List Destination
deriving DecidableEq, Repr

/-- `ORDER BY created_at ASC` (`db.py` 144). -/
def createdLE (a b : Destination) : Prop := a.created_at ≤ b.created_at

instance : DecidableRel createdLE := fun a b => Nat.decLe a.created_at b.created_at

instance : IsTotal Destination createdLE := ⟨fun a b => Nat.le_total a.created_at b.created_at⟩

instance : IsTrans Destination createdLE := ⟨fun _ _ _ h1 h2 => Nat.le_trans h1 h2⟩

/-- `ORDER BY occurred_at DESC` (`db.py` 107): most recent first. -/
def occurredGE (a b : Delivery) : Prop := b.occurred_at ≤ a.occurred_at

instance : DecidableRel occurredGE := fun a b => Nat.decLe b.occurred_at a.occurred_at

instance : IsTotal Delivery occurredGE := ⟨fun a b => Nat.le_total b.occurred_at a.occurred_at⟩

instance : IsTrans Delivery occurredGE := ⟨fun _ _ _ h1 h2 => Nat.le_trans h2 h1⟩

/-- `create_delivery` (`db.py` 44-71): INSERT appends a row. -/
def create_delivery (db : DB) (d : Delivery) : DB :=
  { db with deliveries := db.deliveries ++ [d] }

/-- `get_delivery` (`db.py` 73-84): point lookup by primary key. -/
def get_delivery (db : DB) (delivery_id : String) : Option Delivery :=
  db.deliveries.find? fun d => d.id == delivery_id

/-- `update_delivery` (`db.py` 86-97): one atomic UPDATE of
`status, attempts, last_error` on the rows whose id matches. -/
def update_delivery (db : DB) (delivery_id : String) (status : Status)
    (attempts : Nat) (last_error : Option String) : DB :=
  { db with deliveries := db.deliveries.map fun d =>
      if d.id == delivery_id then
        { d with status := status, attempts := attempts, last_error := last_error }
      else d }

/-- `list_deliveries_for_user` (`db.py` 99-113): the rows of the user,
ordered by `occurred_at DESC`, under `LIMIT ?`.  SQLite treats a
negative LIMIT as "no upper bound on the number of rows returned", so
the cap applies only to nonnegative limits. -/
def list_deliveries_for_user (db : DB) (user_id : String) (limit : Int) :
    List Delivery :=
  let rows := List.insertionSort occurredGE
    (db.deliveries.filter fun d => d.user_id == user_id)
  if limit < 0 then rows else rows.take limit.toNat

/-- `create_destination_db` (`db.py` 115-135): INSERT appends a row. -/
def create_destination_db (db : DB) (d : Destination) : DB :=
  { db with destinations := db.destinations ++ [d] }

/-- `list_destinations_db` (`db.py` 137-157): the rows of the user,
ordered by `created_at ASC`. -/
def list_destinations_db (db : DB) (user_id : String) : List Destination :=
  List.insertionSort createdLE (db.destinations.filter fun d => d.user_id == user_id)

/-- `get_active_destination_url` (`db.py` 159-164): among the sorted
destinations of the user, keep the active ones and return the url of the
last (`active[-1]`, the most recently created), or `None` if there is no
active one. -/
def get_active_destination_url (db : DB) (user_id : String) : Option String :=
  let active := (list_destinations_db db user_id).filter fun d => d.active
  (active.getLast?).map fun d => d.url

/-!
The HTTP layer (`main.py`).  Each FastAPI handler becomes a pure
function from the process state (the database plus the global in-memory
`USERS` dict) and the request data to the new process state and either a
response or an `HTTPException`.  Generated uuids and the current time
are passed as parameters.
-/

/-- An inbound event as built by `ingest_webhook` (`main.py` 200-207);
the `data`/`raw` payload echo does not affect any persisted state and is
omitted. -/
structure Event where
  event_id : String
  source : String
  event_type : String
  occurred_at : Nat
deriving DecidableEq, Repr

/-- One entry of the global `USERS` dict (`main.py` 24-27):
`USERS[user_id]` holds an (unused) destinations list and the in-memory
per-user event log. -/
structure UserEntry where
  destinations : List Destination
  events : List Event
deriving DecidableEq, Repr

/-- The whole mutable process state: the SQLite database plus the global
in-memory `USERS` dict, modelled as an association list in insertion
order. -/
structure ProcState where
  db : DB
  users : List (String × UserEntry)
deriving DecidableEq, Repr

/-- The two request headers consulted by `get_user_id`. -/
structure Request where
  xRapidApiUser : Option String
  xDemoUser : Option String
deriving DecidableEq, Repr

/-- An `HTTPException` (status code and detail). -/
structure HTTPError where
  status_code : Nat
  detail : String
deriving DecidableEq, Repr

/-- Python `s.startswith(pre)`: the first characters of `s` form `pre`. -/
def startswith (s pre : String) : Bool :=
  s.data.take pre.data.length == pre.data

/-- The 401 raised by `get_user_id` (`main.py` 89-92). -/
def missingUserError : HTTPError :=
  ⟨401, "Missing user header. Send X-Demo-User (local) or X-RapidAPI-User (RapidAPI)."⟩

/-- `get_user_id` (`main.py` 79-93): `rapidapi_user or demo_user`, then
reject falsy values with the 401.  Python treats the empty string as
falsy, so an empty header falls through to the other header and an
empty result is rejected exactly like an absent one. -/
def get_user_id (req : Request) : Option String :=
  let user_id :=
    match req.xRapidApiUser with
    | some s => if s = "" then req.xDemoUser else some s
    | none => req.xDemoUser
  match user_id with
  | some s => if s = "" then none else some s
  | none => none

/-- `ensure_user` (`main.py` 95-97): initialise the `USERS` entry of a
user on first sight. -/
def ensure_user (users : List (String × UserEntry)) (user_id : String) :
    List (String × UserEntry) :=
  if users.any fun p => p.1 == user_id then users
  else users ++ [(user_id, ⟨[], []⟩)]

/-- `USERS[user_id]["events"].append(event)` (`main.py` 210). -/
def appendEvent (users : List (String × UserEntry)) (user_id : String)
    (e : Event) : List (String × UserEntry) :=
  users.map fun p =>
    if p.1 == user_id then (p.1, ⟨p.2.destinations, p.2.events ++ [e]⟩) else p

/-- The in-memory event log of a user. -/
def eventsOf (users : List (String × UserEntry)) (uid : String) : List Event :=
  match users.find? fun p => p.1 == uid with
  | some p => p.2.events
  | none => []

/-- Response of `create_destination` (`main.py` 132-136). -/
structure DestinationResponse where
  status : String
  user_id : String
  destination : Destination
deriving DecidableEq, Repr

/-- `create_destination` (`main.py` 103-136).  `payloadUrl` is
`payload.get("url")` (Python rejects the empty string like a missing
key); a url without protocol is prefixed with `https://`; the new
destination is always created with `active = True`, and no existing
destination is deactivated.  `newId` stands for the generated
`dst_<uuid>` and `now` for the creation timestamp. -/
def create_destination (st : ProcState) (req : Request)
    (payloadUrl : Option String) (newId : String) (now : Nat) :
    ProcState × Except HTTPError DestinationResponse :=
  match get_user_id req with
  | none => (st, .error missingUserError)
  | some user_id =>
    let st := { st with users := ensure_user st.users user_id }
    match payloadUrl with
    | none => (st, .error ⟨400, "Missing url in request body"⟩)
    | some url =>
      if url = "" then (st, .error ⟨400, "Missing url in request body"⟩)
      else
        let url :=
          if startswith url "http://" || startswith url "https://" then url
          else "https://" ++ url
        let destination : Destination := ⟨newId, user_id, url, true, now⟩
        ({ st with db := create_destination_db st.db destination },
         .ok ⟨"created", user_id, destination⟩)

/-- `list_destinations` (`main.py` 138-155): the user id and the sorted
destinations of the user. -/
def list_destinations (st : ProcState) (req : Request) :
    ProcState × Except HTTPError (String × List Destination) :=
  match get_user_id req with
  | none => (st, .error missingUserError)
  | some user_id =>
    let st := { st with users := ensure_user st.users user_id }
    (st, .ok (user_id, list_destinations_db st.db user_id))

/-- `read_delivery_status` (`main.py` 157-169): point lookup with 404 on
absence and 403 when the record belongs to another user. -/
def read_delivery_status (st : ProcState) (req : Request)
    (delivery_id : String) : ProcState × Except HTTPError Delivery :=
  match get_user_id req with
  | none => (st, .error missingUserError)
  | some user_id =>
    let st := { st with users := ensure_user st.users user_id }
    match get_delivery st.db delivery_id with
    | none => (st, .error ⟨404, "Delivery not found"⟩)
    | some delivery =>
      if delivery.user_id ≠ user_id then (st, .error ⟨403, "Forbidden"⟩)
      else (st, .ok delivery)

/-- `list_deliveries` (`main.py` 171-177): the query parameter declared
`limit: int = 20` defaults to 20 when absent and is passed straight to
`list_deliveries_for_user`. -/
def list_deliveries (st : ProcState) (req : Request) (limit : Option Int) :
    ProcState × Except HTTPError (String × List Delivery) :=
  match get_user_id req with
  | none => (st, .error missingUserError)
  | some user_id =>
    let st := { st with users := ensure_user st.users user_id }
    (st, .ok (user_id, list_deliveries_for_user st.db user_id (limit.getD 20)))

/-- Response of `ingest_webhook` (`main.py` 235-242);
`destination_status` is always `None` (`main.py` 230). -/
structure IngestResponse where
  status : String
  delivery_id : String
  user_id : String
  destination_url : String
  destination_status : Option Nat
  event : Event
deriving DecidableEq, Repr

/-- `ingest_webhook` (`main.py` 180-242): resolve the active destination
(400 before any record when there is none), build the event, append it
to the in-memory `USERS` event log, create the `pending` delivery record
with `attempts = 0`, schedule `attempt_delivery` as a background task,
and return `accepted`.  `payloadEvent` is `payload.get("event")`
(defaulted to `"unknown"`), `eventId`/`deliveryId` the generated uuids,
`now` the timestamp. -/
def ingest_webhook (st : ProcState) (source : String) (req : Request)
    (payloadEvent : Option String) (eventId deliveryId : String)
    (now : Nat) : ProcState × Except HTTPError IngestResponse :=
  match get_user_id req with
  | none => (st, .error missingUserError)
  | some user_id =>
    let st1 := { st with users := ensure_user st.users user_id }
    match get_active_destination_url st1.db user_id with
    | none => (st1, .error ⟨400,
        "No active destination configured for this user. Create one using POST /v1/destinations"⟩)
    | some destination_url =>
      let event : Event := ⟨eventId, source, payloadEvent.getD "unknown", now⟩
      let st2 := { st1 with users := appendEvent st1.users user_id event }
      let delivery : Delivery :=
        ⟨deliveryId, user_id, source, destination_url, event.event_type,
         event.occurred_at, .pending, 0, none⟩
      ({ st2 with db := create_delivery st2.db delivery },
       .ok ⟨"accepted", deliveryId, user_id, destination_url, none, event⟩)

/-- The destinations of a user that are currently active. -/
def activeDestinations (db : DB) (uid : String) : List Destination :=
  (list_destinations_db db uid).filter fun d => d.active

/-- `get_active_destination_url` is the url of the last active
destination in creation order. -/
theorem get_active_destination_url_eq (db : DB) (uid : String) :
    get_active_destination_url db uid =
      ((activeDestinations db uid).getLast?).map fun d => d.url := rfl

/-- Membership in the active-destination list. -/
theorem mem_activeDestinations (db : DB) (uid : String) (d : Destination) :
    d ∈ activeDestinations db uid ↔
      d ∈ db.destinations ∧ d.user_id = uid ∧ d.active = true := by
  rw [activeDestinations, list_destinations_db]
  simp [List.mem_filter, List.mem_insertionSort, beq_iff_eq, and_assoc]

/-- The last element of a list sorted by ascending creation time has
maximal creation time. -/
theorem getLast?_created_max : ∀ (l : List Destination) (d : Destination),
    List.Sorted createdLE l → l.getLast? = some d →
    ∀ x ∈ l, x.created_at ≤ d.created_at
  | [], _, _, hl => by simp at hl
  | [a], _, _, hl => by
      simp at hl
      subst hl
      intro x hx
      simp at hx
      subst hx
      exact Nat.le_refl _
  | a :: b :: t2, d, hs, hl => by
      rw [List.getLast?_cons_cons] at hl
      rw [List.sorted_cons] at hs
      intro x hx
      rcases List.mem_cons.mp hx with rfl | hx2
      · exact hs.1 d (List.mem_of_getLast?_eq_some hl)
      · exact getLast?_created_max (b :: t2) d hs.2 hl x hx2

/-- After `ensure_user` the user has an entry. -/
theorem ensure_user_any (users : List (String × UserEntry)) (uid : String) :
    (ensure_user users uid).any (fun p => p.1 == uid) = true := by
  rw [ensure_user]
  rcases h : users.any fun p => p.1 == uid
  · simp [h, List.any_append]
  · simp [h]

/-- The event log of the head or of the tail, by whether the head is
the user. -/
theorem eventsOf_cons (p : String × UserEntry)
    (ps : List (String × UserEntry)) (uid : String) :
    eventsOf (p :: ps) uid =
      if p.1 == uid then p.2.events else eventsOf ps uid := by
  rcases hb : (p.1 == uid)
  · simp [eventsOf, List.find?_cons, hb]
  · simp [eventsOf, List.find?_cons, hb]

/-- Appending an event to the log of a present user extends exactly that
log by the event. -/
theorem eventsOf_appendEvent (users : List (String × UserEntry))
    (uid : String) (e : Event)
    (h : users.any (fun p => p.1 == uid) = true) :
    eventsOf (appendEvent users uid e) uid = eventsOf users uid ++ [e] := by
  induction users with
  | nil => simp at h
  | cons p ps ih =>
    rw [appendEvent, List.map_cons]
    rcases hb : (p.1 == uid)
    · have h2 : ps.any (fun q => q.1 == uid) = true := by
        rw [List.any_cons, hb, Bool.false_or] at h
        exact h
      rw [if_neg (by simp [hb]), eventsOf_cons, eventsOf_cons, if_neg (by simp [hb]),
        if_neg (by simp [hb])]
      exact ih h2
    · rw [if_pos (by simp [hb]), eventsOf_cons, eventsOf_cons]
      simp [hb]

/-- Every record returned by `list_deliveries_for_user` is a stored
record of that user. -/
theorem mem_list_deliveries_for_user (db : DB) (uid : String) (lim : Int)
    (d : Delivery) (hd : d ∈ list_deliveries_for_user db uid lim) :
    d ∈ db.deliveries ∧ d.user_id = uid := by
  simp only [list_deliveries_for_user] at hd
  by_cases hneg : lim < 0
  · rw [if_pos hneg] at hd
    have h1 := (List.mem_insertionSort occurredGE).mp hd
    have h2 := List.mem_filter.mp h1
    exact ⟨h2.1, by simpa [beq_iff_eq] using h2.2⟩
  · rw [if_neg hneg] at hd
    have hd2 := (List.take_sublist _ _).subset hd
    have h1 := (List.mem_insertionSort occurredGE).mp hd2
    have h2 := List.mem_filter.mp h1
    exact ⟨h2.1, by simpa [beq_iff_eq] using h2.2⟩

/-- C5: an ingest call by an owner with no active destination fails with
HTTP 400 (surfaced synchronously) and no delivery record is created:
the database is unchanged (only the in-memory `USERS` entry may be
initialised by `ensure_user`, which holds no record). -/
theorem C5_no_destination (st : ProcState) (source : String) (req : Request)
    (pe : Option String) (eid did : String) (now : Nat) (uid : String)
    (hu : get_user_id req = some uid)
    (hd : get_active_destination_url st.db uid = none) :
    (ingest_webhook st source req pe eid did now).2 =
      .error ⟨400, "No active destination configured for this user. Create one using POST /v1/destinations"⟩ ∧
    ((ingest_webhook st source req pe eid did now).1).db = st.db := by
  constructor <;> simp [ingest_webhook, hu, hd]

/-- C5 (witness): the 400 at a concrete empty state. -/
theorem C5_witness :
    (ingest_webhook ⟨⟨[], []⟩, []⟩ "stripe" ⟨none, some "u"⟩ none "e" "d" 0).2 =
      .error ⟨400, "No active destination configured for this user. Create one using POST /v1/destinations"⟩ ∧
    ((ingest_webhook ⟨⟨[], []⟩, []⟩ "stripe" ⟨none, some "u"⟩ none "e" "d" 0).1).db =
      ProcState.db ⟨⟨[], []⟩, []⟩ :=
  C5_no_destination ⟨⟨[], []⟩, []⟩ "stripe" ⟨none, some "u"⟩ none "e" "d" 0 "u"
    (by decide) (by decide)

/-- An active destination used by the C7 and C8 scenarios. -/
def destU : Destination := ⟨"dst_1", "u", "https://a.example/hook", true, 0⟩

/-- C7 (counterexample): one accepted ingest at a concrete state leaves
a non-empty per-owner event log in the process-global `USERS` dict
(`main.py` 210), refuting "the core holds no process-wide mutable state
... ingest keeps no in-memory per-owner event log". -/
theorem C7_counterexample :
    ((ingest_webhook ⟨⟨[], [destU]⟩, []⟩ "stripe" ⟨none, some "u"⟩ (some "pay")
        "evt_1" "dly_1" 5).1).users =
      [("u", ⟨[], [⟨"evt_1", "stripe", "pay", 5⟩]⟩)] ∧
    eventsOf ((ingest_webhook ⟨⟨[], [destU]⟩, []⟩ "stripe" ⟨none, some "u"⟩
        (some "pay") "evt_1" "dly_1" 5).1).users "u" ≠ [] := by
  exact ⟨by decide, by decide⟩

/-- C7 (amended): deliveries and destinations are pushed to the record
store — an accepted ingest adds exactly the new pending delivery row to
the database — but the core also keeps the process-global in-memory
`USERS` dict, and every accepted ingest appends the event to the
owner entry of that in-memory log. -/
theorem C7_amended (st : ProcState) (source : String) (req : Request)
    (pe : Option String) (eid did : String) (now : Nat) (uid durl : String)
    (hu : get_user_id req = some uid)
    (hd : get_active_destination_url st.db uid = some durl) :
    ((ingest_webhook st source req pe eid did now).1).db =
      create_delivery st.db
        ⟨did, uid, source, durl, pe.getD "unknown", now, .pending, 0, none⟩ ∧
    eventsOf ((ingest_webhook st source req pe eid did now).1).users uid =
      eventsOf (ensure_user st.users uid) uid ++
        [⟨eid, source, pe.getD "unknown", now⟩] := by
  constructor
  · simp [ingest_webhook, hu, hd]
  · simp only [ingest_webhook, hu, hd]
    exact eventsOf_appendEvent _ _ _ (ensure_user_any st.users uid)

/-- C7 (witness): the amended statement at the concrete one-destination
state. -/
theorem C7_amended_witness :
    eventsOf ((ingest_webhook ⟨⟨[], [destU]⟩, []⟩ "stripe" ⟨none, some "u"⟩
        (some "pay") "evt_1" "dly_1" 5).1).users "u" =
      eventsOf (ensure_user ([] : List (String × UserEntry)) "u") "u" ++
        [⟨"evt_1", "stripe", "pay", 5⟩] :=
  (C7_amended ⟨⟨[], [destU]⟩, []⟩ "stripe" ⟨none, some "u"⟩ (some "pay")
    "evt_1" "dly_1" 5 "u" "https://a.example/hook" (by decide) (by decide)).2

/-- State after creating destination `dst_1` for user `u`. -/
def stA : ProcState :=
  (create_destination ⟨⟨[], []⟩, []⟩ ⟨none, some "u"⟩ (some "https://a.example")
    "dst_1" 1).1

/-- State after then creating destination `dst_2` for the same user. -/
def stB : ProcState :=
  (create_destination stA ⟨none, some "u"⟩ (some "https://b.example")
    "dst_2" 2).1

/-- C8 (counterexample): after two `create_destination` calls for the
same owner, both destinations are active at once (`main.py` 119 always
sets `active = True` and never deactivates earlier rows), refuting "at
most one destination is active at a time".  The resolver does return
the most recently created active url. -/
theorem C8_counterexample :
    (activeDestinations stB.db "u").length = 2 ∧
    ¬ (activeDestinations stB.db "u").length ≤ 1 ∧
    get_active_destination_url stB.db "u" = some "https://b.example" := by
  exact ⟨by decide, by decide, by decide⟩

/-- C8 (amended): any number of destinations may be active per owner;
the resolver returns `none` iff the owner has no active destination and
otherwise the url of an active destination of the owner with maximal
creation time (the most recently created active one). -/
theorem C8_amended (db : DB) (uid : String) :
    (get_active_destination_url db uid = none ↔ activeDestinations db uid = []) ∧
    ∀ u, get_active_destination_url db uid = some u →
      ∃ d, d ∈ db.destinations ∧ d.user_id = uid ∧ d.active = true ∧ d.url = u ∧
        ∀ d2 ∈ db.destinations, d2.user_id = uid → d2.active = true →
          d2.created_at ≤ d.created_at := by
  have hsorted : List.Sorted createdLE (activeDestinations db uid) :=
    (List.sorted_insertionSort createdLE _).filter _
  constructor
  · rw [get_active_destination_url_eq, Option.map_eq_none',
      List.getLast?_eq_none_iff]
  · intro u hu
    rw [get_active_destination_url_eq] at hu
    rcases ho : (activeDestinations db uid).getLast? with _ | d
    · rw [ho] at hu
      simp at hu
    · rw [ho] at hu
      simp only [Option.map_some', Option.some.injEq] at hu
      have hmem := (mem_activeDestinations db uid d).mp
        (List.mem_of_getLast?_eq_some ho)
      refine ⟨d, hmem.1, hmem.2.1, hmem.2.2, hu, ?_⟩
      intro d2 hd2 hou hoa
      exact getLast?_created_max _ d hsorted ho d2
        ((mem_activeDestinations db uid d2).mpr ⟨hd2, hou, hoa⟩)

/-- C8 (witness): the amended statement at the two-destination state. -/
theorem C8_amended_witness :
    ∃ d, d ∈ stB.db.destinations ∧ d.user_id = "u" ∧ d.active = true ∧
      d.url = "https://b.example" ∧
      ∀ d2 ∈ stB.db.destinations, d2.user_id = "u" → d2.active = true →
        d2.created_at ≤ d.created_at :=
  (C8_amended stB.db "u").2 "https://b.example" (by decide)

/-- A stored delivery of user `u`, used by the C9 scenarios. -/
def dly1 : Delivery :=
  ⟨"dly_1", "u", "stripe", "https://a.example/hook", "pay", 1, .pending, 0, none⟩

/-- C9 (counterexample): with a stored record and the client-supplied
limit `-1`, the endpoint returns one record — SQLite treats a negative
LIMIT as "no upper bound" — so "returns at most `limit` records" fails
for a negative limit value. -/
theorem C9_counterexample :
    (list_deliveries ⟨⟨[dly1], []⟩, []⟩ ⟨none, some "u"⟩ (some (-1))).2 =
      .ok ("u", [dly1]) ∧
    ¬ ((([dly1] : List Delivery).length : Int) ≤ -1) := by
  exact ⟨by rfl, by decide⟩

/-- C9 (amended): `list_deliveries` (limit defaulting to 20 when the
query parameter is absent) returns the records of the owner ordered by
creation time descending; for a nonnegative limit at most `limit`
records are returned, while a negative limit returns all of the owner
records (the SQLite LIMIT semantics). -/
theorem C9_amended (st : ProcState) (req : Request) (lim : Option Int)
    (uid : String) (hu : get_user_id req = some uid) :
    (list_deliveries st req lim).2 =
      .ok (uid, list_deliveries_for_user st.db uid (lim.getD 20)) ∧
    List.Sorted occurredGE (list_deliveries_for_user st.db uid (lim.getD 20)) ∧
    (∀ d ∈ list_deliveries_for_user st.db uid (lim.getD 20), d.user_id = uid) ∧
    (0 ≤ lim.getD 20 →
      ((list_deliveries_for_user st.db uid (lim.getD 20)).length : Int) ≤
        lim.getD 20) ∧
    (lim.getD 20 < 0 →
      list_deliveries_for_user st.db uid (lim.getD 20) =
        List.insertionSort occurredGE
          (st.db.deliveries.filter fun d => d.user_id == uid)) := by
  have hs : List.Sorted occurredGE (List.insertionSort occurredGE
      (st.db.deliveries.filter fun d => d.user_id == uid)) :=
    List.sorted_insertionSort occurredGE _
  refine ⟨by simp [list_deliveries, hu], ?_, ?_, ?_, ?_⟩
  · simp only [list_deliveries_for_user]
    by_cases hneg : lim.getD 20 < 0
    · rw [if_pos hneg]
      exact hs
    · rw [if_neg hneg]
      exact List.Pairwise.sublist (List.take_sublist _ _) hs
  · intro d hd
    exact (mem_list_deliveries_for_user st.db uid (lim.getD 20) d hd).2
  · intro hpos
    simp only [list_deliveries_for_user]
    rw [if_neg (by omega)]
    have hlen := List.length_take (lim.getD 20).toNat
      (List.insertionSort occurredGE
        (st.db.deliveries.filter fun d => d.user_id == uid))
    have : (List.take (lim.getD 20).toNat
        (List.insertionSort occurredGE
          (st.db.deliveries.filter fun d => d.user_id == uid))).length ≤
        (lim.getD 20).toNat := by
      rw [hlen]
      exact Nat.min_le_left _ _
    omega
  · intro hneg
    simp only [list_deliveries_for_user]
    rw [if_pos hneg]

/-- C9 (witness): the amended statement at a concrete one-record state
with the limit parameter absent (so defaulted to 20). -/
theorem C9_amended_witness :
    List.Sorted occurredGE (list_deliveries_for_user (DB.mk [dly1] []) "u"
      ((none : Option Int).getD 20)) :=
  (C9_amended ⟨⟨[dly1], []⟩, []⟩ ⟨none, some "u"⟩ none "u" (by decide)).2.1

/-- C10: a request with neither an X-RapidAPI-User nor an X-Demo-User
header is rejected by every endpoint with the HTTP 401
`missingUserError`, and the whole process state — in particular every
delivery and destination record — is left unchanged. -/
theorem C10_missing_headers (st : ProcState) (req : Request)
    (source dlid : String) (pe pu : Option String) (eid did nid : String)
    (now : Nat) (lim : Option Int)
    (h1 : req.xRapidApiUser = none) (h2 : req.xDemoUser = none) :
    missingUserError.status_code = 401 ∧
    ingest_webhook st source req pe eid did now = (st, .error missingUserError) ∧
    create_destination st req pu nid now = (st, .error missingUserError) ∧
    list_destinations st req = (st, .error missingUserError) ∧
    read_delivery_status st req dlid = (st, .error missingUserError) ∧
    list_deliveries st req lim = (st, .error missingUserError) := by
  have hu : get_user_id req = none := by
    simp [get_user_id, h1, h2]
  refine ⟨rfl, ?_, ?_, ?_, ?_, ?_⟩ <;>
    simp [ingest_webhook, create_destination, list_destinations,
      read_delivery_status, list_deliveries, hu]

/-- C10 (witness): the 401 rejection of ingest at a concrete header-less
request and empty state. -/
theorem C10_witness :
    ingest_webhook ⟨⟨[], []⟩, []⟩ "stripe" ⟨none, none⟩ none "e" "d" 0 =
      (⟨⟨[], []⟩, []⟩, .error missingUserError) :=
  (C10_missing_headers ⟨⟨[], []⟩, []⟩ ⟨none, none⟩ "stripe" "dl" none none
    "e" "d" "n" 0 none rfl rfl).2.1

end Webhook
